import Mathlib

/-!
Shallow embedding of the countries_api refresh pipeline
(src/countries/models.py, src/countries/utils.py, src/countries/views.py).

Python values are modelled as follows: JSON numbers and Decimal values are
rationals (ℚ), ints are ℤ, optional/nullable values are Option, dict-based
records are Lean structures, raised exceptions are Except, and timestamps
are ℕ.  Python truthiness tests (`if x:`) are modelled explicitly: an empty
string, the integer 0, the rational 0, an empty list and None are falsy.
-/

namespace CountriesApi

/-- Python truthiness for an optional string (None and the empty string are falsy). -/
def truthyStr : Option String → Bool
  | none => false
  | some s => s ≠ ""

/-- Python truthiness for an optional integer (None and 0 are falsy). -/
def truthyInt : Option Int → Bool
  | none => false
  | some n => n ≠ 0

/-- Python truthiness for an optional rational (None and 0 are falsy). -/
def truthyRat : Option ℚ → Bool
  | none => false
  | some q => q ≠ 0

/-- Floor of a rational as an integer. -/
def ratFloor (q : ℚ) : ℤ := ⌊q⌋

/-- Rounding to an integer with ties going away from zero, as Decimal ROUND_HALF_UP. -/
def roundHalfUpZ (q : ℚ) : ℤ :=
  if 0 ≤ q then ratFloor (q + 1/2) else -(ratFloor (-q + 1/2))

/-- Decimal.quantize at d fractional digits with rounding=ROUND_HALF_UP. -/
def quantize (d : ℕ) (q : ℚ) : ℚ := (roundHalfUpZ (q * 10 ^ d) : ℚ) / 10 ^ d

/-- Rounding to an integer with ties going to the even neighbour, as Python round(). -/
def roundHalfEvenZ (q : ℚ) : ℤ :=
  if q - ratFloor q < 1/2 then ratFloor q
  else if 1/2 < q - ratFloor q then ratFloor q + 1
  else if Even (ratFloor q) then ratFloor q else ratFloor q + 1

/-- Python round(x, d): round half to even at d fractional digits. -/
def pyRound (d : ℕ) (q : ℚ) : ℚ := (roundHalfEvenZ (q * 10 ^ d) : ℚ) / 10 ^ d

/-- One entry of a country's `currencies` array; only the `code` key is consulted,
and `.get('code')` yields None when the key is missing. -/
structure CurrencyEntry where
  code : Option String := none
deriving Repr, DecidableEq

/-- The exchange-rate mapping fetched from the rates API: currency code → rate. -/
abbrev RateMap := List (String × ℚ)

/-- Dict lookup `rates.get(code)`. -/
def lookupRate (rates : RateMap) (c : String) : Option ℚ :=
  (rates.find? (fun p => p.1 = c)).map (fun p => p.2)

/-- CountryDataFetcher.get_currency_code (src/countries/utils.py:55-60):
if the currencies list is empty return None, otherwise return the FIRST
entry's `code` value (later entries are never consulted). -/
def get_currency_code (currencies : List CurrencyEntry) : Option String :=
  match currencies with
  | [] => none
  | first :: _ => first.code

/-- The spec's wording of currency-code extraction, for refinement
comparison only: the first entry of the currency list that has a non-empty
code, absent when the list is empty or no entry has a code. -/
def get_currency_code_spec (currencies : List CurrencyEntry) : Option String :=
  (currencies.find? (fun e => truthyStr e.code)).bind (fun e => e.code)

/-- CountryDataFetcher.get_exchange_rate (src/countries/utils.py:62-70):
None when the code or the rate mapping is falsy; otherwise look the code up,
and when the found rate is truthy (non-zero) quantize it to 10 decimal
places with ROUND_HALF_UP, else None. -/
def get_exchange_rate (rates : RateMap) (currency_code : Option String) : Option ℚ :=
  if truthyStr currency_code = false ∨ rates.isEmpty then none
  else
    match lookupRate rates (currency_code.getD "") with
    | none => none
    | some rate => if rate ≠ 0 then some (quantize 10 rate) else none

/-- The persisted Country record (src/countries/models.py:5-18).
`population` is Option because the attribute may be unset (None) on a model
instance even though the column is non-null; `last_refreshed_at` is stamped
on every save (auto_now). -/
structure Country where
  name : String
  capital : Option String := none
  region : Option String := none
  population : Option ℤ := none
  currency_code : Option String := none
  exchange_rate : Option ℚ := none
  estimated_gdp : Option ℚ := none
  flag_url : Option String := none
  last_refreshed_at : ℕ := 0
deriving Repr, DecidableEq

/-- Country.clean (src/countries/models.py:20-32): list of required-field
errors; non-empty iff validation raises ValidationError. -/
def Country.clean (c : Country) : List String :=
  (if c.name = "" then ["name"] else [])
    ++ (if c.population = none then ["population"] else [])
    ++ (if truthyStr c.currency_code = false then ["currency_code"] else [])

/-- Country.calculate_estimated_gdp (src/countries/models.py:34-40): when both
population and exchange_rate are truthy, population * multiplier / rate
rounded by Python round(_, 10); otherwise None.  The random multiplier drawn
by random.uniform(1000, 2000) is passed in explicitly. -/
def Country.calculate_estimated_gdp (m : ℚ) (c : Country) : Option ℚ :=
  if truthyInt c.population ∧ truthyRat c.exchange_rate then
    some (pyRound 10 ((c.population.getD 0 : ℚ) * m / c.exchange_rate.getD 0))
  else none

/-- The estimated_gdp recomputation at the top of Country.save
(src/countries/models.py:42-47): overwrite estimated_gdp with a fresh
calculation when population and exchange_rate are truthy, with None
otherwise. -/
def Country.presave (m : ℚ) (c : Country) : Country :=
  if truthyInt c.population ∧ truthyRat c.exchange_rate then
    { c with estimated_gdp := c.calculate_estimated_gdp m }
  else
    { c with estimated_gdp := none }

/-- Country.save (src/countries/models.py:42-51): recompute estimated_gdp
(overwriting whatever the caller stored there), run full_clean, and only then
persist; a validation error aborts the save.  `m` is the save-time random
multiplier, `now` the auto_now timestamp. -/
def Country.save (m : ℚ) (now : ℕ) (c : Country) : Except (List String) Country :=
  match (c.presave m).clean with
  | [] => .ok { c.presave m with last_refreshed_at := now }
  | e :: es => .error (e :: es)

/-- One raw entry of the fetched countries directory
(the untyped JSON records consumed by refresh_countries_data). -/
structure CountryData where
  name : Option String := none
  capital : Option String := none
  region : Option String := none
  population : Option ℤ := none
  currencies : List CurrencyEntry := []
  flag : Option String := none
deriving Repr, DecidableEq

/-- Country.objects.update_or_create(name=..., defaults=...) followed by the
model's save (src/countries/utils.py:125-136): build the record from the
defaults, save it (running validation), and either overwrite the row with a
matching name or append a new row; the Bool is the created flag.  A
ValidationError aborts without touching the store. -/
def update_or_create (nm : String) (defaults : Country) (m : ℚ) (now : ℕ)
    (store : List Country) : Except (List String) (List Country × Bool) :=
  match Country.save m now { defaults with name := nm } with
  | .error e => .error e
  | .ok saved =>
    if (store.find? (fun c => c.name = nm)).isSome then
      .ok (store.map (fun c => if c.name = nm then saved else c), false)
    else
      .ok (store ++ [saved], true)

/-- The mutable state of the refresh loop.  `processed`, `created` and
`updated` are the counters of refresh_countries_data; `skipped` counts the
entries skipped for a missing or empty name and `errors` the per-record
exceptions caught by the loop (these two are not returned by the code, the
loop just executes `continue`; they are carried here to state accounting
properties about those branches). -/
structure RState where
  processed : ℕ := 0
  created : ℕ := 0
  updated : ℕ := 0
  skipped : ℕ := 0
  errors : ℕ := 0
  store : List Country := []
deriving Repr, DecidableEq

/-- The final store write of one loop iteration (src/countries/utils.py:125-150):
update_or_create with the given defaults; a ValidationError (or any other
exception) from it is caught and counted, otherwise the created/updated
counter advances. -/
def writeRecord (nm : String) (defaults : Country) (m : ℚ) (now : ℕ)
    (s : RState) : RState :=
  match update_or_create nm defaults m now s.store with
  | .error _ => { s with errors := s.errors + 1 }
  | .ok (store2, createdFlag) =>
    if createdFlag then { s with store := store2, created := s.created + 1 }
    else { s with store := store2, updated := s.updated + 1 }

/-- One iteration of the refresh loop (src/countries/utils.py:92-150).
`mm.1` is the multiplier drawn at utils.py:120 and `mm.2` the one drawn
inside Country.save.  The division at utils.py:121 raises ZeroDivisionError
when the quantized exchange rate is zero; the surrounding except-clause
catches it, so that case is an error outcome with no store write. -/
def processEntry (rates : RateMap) (now : ℕ) (mm : ℚ × ℚ) (s : RState)
    (cd : CountryData) : RState :=
  let s := { s with processed := s.processed + 1 }
  if truthyStr cd.name = false then { s with skipped := s.skipped + 1 }
  else
    let nm := cd.name.getD ""
    let population : ℤ := cd.population.getD 0
    let currency_code := get_currency_code cd.currencies
    if cd.currencies.isEmpty ∨ truthyStr currency_code = false then
      writeRecord nm
        { name := nm, capital := cd.capital, region := cd.region,
          population := some population, currency_code := none,
          exchange_rate := none, estimated_gdp := some 0,
          flag_url := cd.flag } mm.2 now s
    else
      match get_exchange_rate rates currency_code with
      | none =>
        writeRecord nm
          { name := nm, capital := cd.capital, region := cd.region,
            population := some population, currency_code := currency_code,
            exchange_rate := none, estimated_gdp := none,
            flag_url := cd.flag } mm.2 now s
      | some xr =>
        if xr = 0 then { s with errors := s.errors + 1 }
        else
          writeRecord nm
            { name := nm, capital := cd.capital, region := cd.region,
              population := some population, currency_code := currency_code,
              exchange_rate := some xr,
              estimated_gdp := some (quantize 2 ((population : ℚ) * mm.1 / xr)),
              flag_url := cd.flag } mm.2 now s

/-- The refresh for-loop: entry `i` of the directory uses the multiplier
pair `mult i`. -/
def refreshLoop (rates : RateMap) (now : ℕ) (mult : ℕ → ℚ × ℚ) :
    ℕ → RState → List CountryData → RState
  | _, s, [] => s
  | i, s, cd :: rest =>
    refreshLoop rates now mult (i + 1) (processEntry rates now (mult i) s cd) rest

/-- The whole per-record phase of refresh_countries_data over an already
fetched rate mapping and directory, starting from the given store. -/
def refreshCore (rates : RateMap) (cdata : List CountryData) (mult : ℕ → ℚ × ℚ)
    (now : ℕ) (store : List Country) : RState :=
  refreshLoop rates now mult 0 { store := store } cdata

/-- The dict returned by refresh_countries_data (src/countries/utils.py:154-158). -/
structure RefreshResult where
  processed : ℕ
  created : ℕ
  updated : ℕ
deriving Repr, DecidableEq

/-- The outcomes of the two external fetches, as seen by
refresh_countries_data: each either raises ExternalAPIError or yields data. -/
structure RefreshInput where
  ratesResult : Except String RateMap
  countriesResult : Except String (List CountryData)

/-- CountryDataFetcher.refresh_countries_data (src/countries/utils.py:72-158):
fetch rates, then the directory (either failure propagates before any write);
inside the transaction first set the global refresh marker to now, then run
the per-record loop.  Returns the result together with the final store and
global marker. -/
def refresh_countries_data (inp : RefreshInput) (mult : ℕ → ℚ × ℚ) (now : ℕ)
    (store : List Country) (marker : Option ℕ) :
    Except String RefreshResult × List Country × Option ℕ :=
  match inp.ratesResult with
  | .error e => (.error e, store, marker)
  | .ok rates =>
    match inp.countriesResult with
    | .error e => (.error e, store, marker)
    | .ok cdata =>
      let final := refreshCore rates cdata mult now store
      (.ok ⟨final.processed, final.created, final.updated⟩, final.store, some now)

/-- The response_data dict built by RefreshCountriesView.post
(src/countries/views.py:29-40).  `errors` is `result.get('errors', 0)`:
the dict returned by refresh_countries_data has no such key, so it is 0. -/
structure RefreshResponseData where
  message : String
  countries_processed : ℕ
  countries_updated : ℕ
  countries_created : ℕ
  errors : ℕ
  image_generated : Bool
deriving Repr, DecidableEq

/-- The HTTP outcome of POST /countries/refresh. -/
inductive RefreshPostResponse where
  | ok (data : RefreshResponseData)
  | serviceUnavailable (details : String)
deriving Repr, DecidableEq

/-- HTTP status code of the refresh response (200 or 503; the generic 500
handler is unreachable in this model). -/
def RefreshPostResponse.statusCode : RefreshPostResponse → ℕ
  | .ok _ => 200
  | .serviceUnavailable _ => 503

/-- RefreshCountriesView.post (src/countries/views.py:19-57): run the
refresh; an ExternalAPIError becomes a 503 response, success becomes a 200
response built from the result counters.  `imageOk` abstracts whether the
summary-image generation succeeded. -/
def refreshPost (inp : RefreshInput) (mult : ℕ → ℚ × ℚ) (now : ℕ)
    (store : List Country) (marker : Option ℕ) (imageOk : Bool) :
    RefreshPostResponse × List Country × Option ℕ :=
  match refresh_countries_data inp mult now store marker with
  | (.error e, store2, marker2) => (.serviceUnavailable e, store2, marker2)
  | (.ok result, store2, marker2) =>
    (.ok { message := "Countries data refreshed successfully",
           countries_processed := result.processed,
           countries_updated := result.updated,
           countries_created := result.created,
           errors := 0,
           image_generated := imageOk }, store2, marker2)

/-- The body of GET /status (src/countries/views.py:161-173). -/
structure StatusData where
  total_countries : ℕ
  last_refreshed_at : Option ℕ
deriving Repr, DecidableEq

/-- Country.objects.order_by(-last_refreshed_at).first() of StatusView.list:
the greatest per-country last_refreshed_at, none on an empty store. -/
def lastRefreshedMax (store : List Country) : Option ℕ :=
  match store with
  | [] => none
  | c :: rest => some (rest.foldl (fun acc d => max acc d.last_refreshed_at) c.last_refreshed_at)

/-- StatusView.list (src/countries/views.py:150-173): the reported data is
computed from the countries table alone (count and the most recent
per-country last_refreshed_at); the global refresh marker is not consulted. -/
def statusList (store : List Country) : StatusData :=
  { total_countries := store.length, last_refreshed_at := lastRefreshedMax store }

/-- Query parameters of a GET request: ordered key/value pairs. -/
abbrev QueryParams := List (String × String)

/-- request.query_params.get(k): first value for the key, None when absent. -/
def getParam (params : QueryParams) (k : String) : Option String :=
  (params.find? (fun p => p.1 = k)).map (fun p => p.2)

/-- The recognized query parameter keys of GET /countries
(src/countries/views.py:70,114). -/
def valid_params : List String := ["region", "currency", "sort", "name"]

/-- The unrecognized keys among the request's parameters, in request order
(src/countries/views.py:116). -/
def invalid_params (params : QueryParams) : List String :=
  (params.map (fun p => p.1)).filter (fun p => ¬ valid_params.contains p)

/-- Django iexact match of an optional column against a filter value:
case-insensitive equality, never matched by a NULL column. -/
def iexact (column : Option String) (v : String) : Bool :=
  match column with
  | none => false
  | some s => s.toLower = v.toLower

/-- CountriesListView.get_queryset (src/countries/views.py:66-110): empty
result on invalid parameters (unreachable from list, which rejects them
first), then region/currency/name filters for truthy values, then the sort
mapping with default name ordering; GDP sorts first exclude rows with NULL
estimated_gdp. -/
def get_queryset (params : QueryParams) (store : List Country) : List Country :=
  if (invalid_params params).isEmpty = false then []
  else
    let q : List Country := store
    let q : List Country := match getParam params "region" with
      | some r => if r ≠ "" then q.filter (fun c => iexact c.region r) else q
      | none => q
    let q : List Country := match getParam params "currency" with
      | some cur => if cur ≠ "" then q.filter (fun c => iexact c.currency_code cur) else q
      | none => q
    let q : List Country := match getParam params "name" with
      | some n => if n ≠ "" then q.filter (fun c => iexact (some c.name) n) else q
      | none => q
    match getParam params "sort" with
    | some "gdp_desc" =>
      (q.filter (fun c => c.estimated_gdp.isSome)).mergeSort
        (fun a b => b.estimated_gdp.getD 0 ≤ a.estimated_gdp.getD 0)
    | some "gdp_asc" =>
      (q.filter (fun c => c.estimated_gdp.isSome)).mergeSort
        (fun a b => a.estimated_gdp.getD 0 ≤ b.estimated_gdp.getD 0)
    | some "population_desc" =>
      q.mergeSort (fun a b => b.population.getD 0 ≤ a.population.getD 0)
    | some "population_asc" =>
      q.mergeSort (fun a b => a.population.getD 0 ≤ b.population.getD 0)
    | some "name_asc" => q.mergeSort (fun a b => a.name ≤ b.name)
    | some "name_desc" => q.mergeSort (fun a b => b.name ≤ a.name)
    | _ => q.mergeSort (fun a b => a.name ≤ b.name)

/-- The HTTP outcome of GET /countries. -/
inductive ListResponse where
  | ok (countries : List Country)
  | badRequest (invalid : List String) (valid : List String)
deriving Repr, DecidableEq

/-- HTTP status code of the list response. -/
def ListResponse.statusCode : ListResponse → ℕ
  | .ok _ => 200
  | .badRequest _ _ => 400

/-- CountriesListView.list (src/countries/views.py:112-125): reject the
request with a 400 listing the offending keys when any parameter key is
unrecognized, before any store access; otherwise serve the queryset. -/
def countriesList (params : QueryParams) (store : List Country) : ListResponse :=
  if (invalid_params params).isEmpty then .ok (get_queryset params store)
  else .badRequest (invalid_params params) valid_params

/-- The total of the four per-entry outcome counters. -/
def countSum (s : RState) : ℕ := s.created + s.updated + s.skipped + s.errors

lemma clean_eq_nil_iff (c : Country) :
    Country.clean c = [] ↔
      (c.name ≠ "" ∧ c.population ≠ none ∧ truthyStr c.currency_code = true) := by
  unfold Country.clean
  split <;> split <;> split <;> simp_all

lemma presave_fields (m : ℚ) (c : Country) :
    (c.presave m).name = c.name ∧ (c.presave m).population = c.population ∧
    (c.presave m).currency_code = c.currency_code ∧
    (c.presave m).exchange_rate = c.exchange_rate := by
  unfold Country.presave
  split <;> exact ⟨rfl, rfl, rfl, rfl⟩

lemma clean_presave (m : ℚ) (c : Country) :
    (c.presave m).clean = c.clean := by
  unfold Country.presave
  split <;> rfl

lemma save_ok_iff (m : ℚ) (now : ℕ) (c : Country) :
    (∃ c2, Country.save m now c = .ok c2) ↔ Country.clean c = [] := by
  unfold Country.save
  rw [clean_presave]
  rcases h : Country.clean c with _ | ⟨e, es⟩ <;> simp

lemma save_ok_elim (m : ℚ) (now : ℕ) (c c2 : Country)
    (h : Country.save m now c = .ok c2) :
    c2 = { c.presave m with last_refreshed_at := now } ∧ Country.clean c = [] := by
  unfold Country.save at h
  rw [clean_presave] at h
  rcases hc : Country.clean c with _ | ⟨e, es⟩ <;> rw [hc] at h
  · exact ⟨(Except.ok.inj h).symm, rfl⟩
  · exact absurd h (by simp)

lemma writeRecord_spec (nm : String) (defaults : Country) (m : ℚ) (now : ℕ)
    (s : RState) :
    (writeRecord nm defaults m now s).processed = s.processed ∧
    countSum (writeRecord nm defaults m now s) = countSum s + 1 ∧
    s.created ≤ (writeRecord nm defaults m now s).created ∧
    s.updated ≤ (writeRecord nm defaults m now s).updated ∧
    ((writeRecord nm defaults m now s).created = s.created →
      (writeRecord nm defaults m now s).updated = s.updated →
      (writeRecord nm defaults m now s).store = s.store) := by
  unfold writeRecord
  rcases hu : update_or_create nm defaults m now s.store with e | ⟨st2, fl⟩ <;>
    simp only [countSum]
  · simp; omega
  · cases fl <;> simp <;> omega

lemma processEntry_spec (rates : RateMap) (now : ℕ) (mm : ℚ × ℚ) (s : RState)
    (cd : CountryData) :
    (processEntry rates now mm s cd).processed = s.processed + 1 ∧
    countSum (processEntry rates now mm s cd) = countSum s + 1 ∧
    s.created ≤ (processEntry rates now mm s cd).created ∧
    s.updated ≤ (processEntry rates now mm s cd).updated ∧
    ((processEntry rates now mm s cd).created = s.created →
      (processEntry rates now mm s cd).updated = s.updated →
      (processEntry rates now mm s cd).store = s.store) := by
  unfold processEntry
  simp only []
  split
  · simp [countSum]; omega
  · split
    · exact writeRecord_spec _ _ _ _ _
    · split
      · exact writeRecord_spec _ _ _ _ _
      · split
        · simp [countSum]; omega
        · exact writeRecord_spec _ _ _ _ _

lemma refreshLoop_spec (rates : RateMap) (now : ℕ) (mult : ℕ → ℚ × ℚ) :
    ∀ (l : List CountryData) (i : ℕ) (s : RState),
    (refreshLoop rates now mult i s l).processed = s.processed + l.length ∧
    countSum (refreshLoop rates now mult i s l) = countSum s + l.length ∧
    s.created ≤ (refreshLoop rates now mult i s l).created ∧
    s.updated ≤ (refreshLoop rates now mult i s l).updated ∧
    ((refreshLoop rates now mult i s l).created = s.created →
      (refreshLoop rates now mult i s l).updated = s.updated →
      (refreshLoop rates now mult i s l).store = s.store)
  | [], i, s => by simp [refreshLoop]
  | cd :: rest, i, s => by
    have hp := processEntry_spec rates now (mult i) s cd
    have ih := refreshLoop_spec rates now mult rest (i + 1)
      (processEntry rates now (mult i) s cd)
    simp only [refreshLoop, List.length_cons]
    refine ⟨by omega, by omega, by omega, by omega, fun hc hu => ?_⟩
    have h1 : (processEntry rates now (mult i) s cd).created = s.created := by omega
    have h2 : (processEntry rates now (mult i) s cd).updated = s.updated := by omega
    have h3 := hp.2.2.2.2 h1 h2
    have h4 := ih.2.2.2.2 (by omega) (by omega)
    rw [h4, h3]

/-- Claim C6, counterexample: for a currency list whose first entry has no
code but whose second entry has code USD, the code extracts nothing, while
the claimed first-entry-with-a-nonempty-code rule would extract USD. -/
theorem get_currency_code_cex :
    get_currency_code [⟨none⟩, ⟨some "USD"⟩] = none ∧
    get_currency_code_spec [⟨none⟩, ⟨some "USD"⟩] = some "USD" ∧
    get_currency_code [⟨none⟩, ⟨some "USD"⟩] ≠
      get_currency_code_spec [⟨none⟩, ⟨some "USD"⟩] := by
  exact ⟨rfl, rfl, by decide⟩

/-- Claim C6, amended: the extracted currency code is the `code` value of
the FIRST entry of the currency list only; it is absent when the list is
empty or the first entry has no code, and later entries are never
consulted. -/
theorem get_currency_code_first_entry_only (e : CurrencyEntry)
    (r₁ r₂ : List CurrencyEntry) :
    get_currency_code (e :: r₁) = e.code ∧
    get_currency_code (e :: r₁) = get_currency_code (e :: r₂) ∧
    get_currency_code ([] : List CurrencyEntry) = none :=
  ⟨rfl, rfl, rfl⟩

/-- Claim C9: every record the store accepts on save has a non-empty name,
a non-null population and a truthy (present, non-empty) currency code, and
every record missing any of these is rejected by the validation run on
save; in particular no persisted record has currency_code absent. -/
theorem save_requires_name_population_currency (c : Country) (m : ℚ) (now : ℕ) :
    (∀ c2, Country.save m now c = .ok c2 →
      c2.name ≠ "" ∧ c2.population ≠ none ∧ truthyStr c2.currency_code = true) ∧
    (¬(c.name ≠ "" ∧ c.population ≠ none ∧ truthyStr c.currency_code = true) →
      ∃ e es, Country.save m now c = .error (e :: es)) := by
  constructor
  · intro c2 h
    obtain ⟨hc2, hclean⟩ := save_ok_elim m now c c2 h
    obtain ⟨h1, h2, h3⟩ := (clean_eq_nil_iff c).mp hclean
    obtain ⟨f1, f2, f3, -⟩ := presave_fields m c
    subst hc2
    exact ⟨by simpa [f1], by simpa [f2], by simpa [f3]⟩
  · intro hmiss
    have hclean : Country.clean c ≠ [] := fun h =>
      hmiss ((clean_eq_nil_iff c).mp h)
    unfold Country.save
    rw [clean_presave]
    rcases hc : Country.clean c with _ | ⟨e, es⟩
    · exact absurd hc hclean
    · exact ⟨e, es, rfl⟩

/-- Claim C9, witness: a complete record is accepted with its fields
intact, while a record with no currency code is rejected. -/
theorem save_requires_name_population_currency_witness :
    (({ name := "X", population := some 1, currency_code := some "USD",
        last_refreshed_at := 7 } : Country).name ≠ "" ∧
      ({ name := "X", population := some 1, currency_code := some "USD",
         last_refreshed_at := 7 } : Country).population ≠ none ∧
      truthyStr
        ({ name := "X", population := some 1, currency_code := some "USD",
           last_refreshed_at := 7 } : Country).currency_code = true) ∧
    ∃ e es, Country.save 1000 7
        ({ name := "Y", population := some 1 } : Country) = .error (e :: es) := by
  constructor
  · exact (save_requires_name_population_currency
      { name := "X", population := some 1, currency_code := some "USD" }
      1000 7).1 _ rfl
  · exact (save_requires_name_population_currency
      { name := "Y", population := some 1 } 1000 7).2 (by decide)

/-- Claim C2, counterexample: a record with population 0 (present and
non-null) and exchange_rate 1 (present and non-null) is accepted by save
but is persisted with estimated_gdp absent, because save tests Python
truthiness (population 0 is falsy), not presence. -/
theorem save_gdp_population_zero_cex :
    ∃ c2, Country.save 1000 7
        { name := "X", population := some 0, currency_code := some "USD",
          exchange_rate := some 1 } = .ok c2 ∧
      c2.population = some 0 ∧ c2.exchange_rate = some 1 ∧
      c2.estimated_gdp = none := by
  refine ⟨_, rfl, rfl, rfl, ?_⟩
  show (Country.presave 1000 _).estimated_gdp = none
  decide

/-- Claim C2, amended: on every accepted save, estimated_gdp is present iff
both population and exchange_rate are truthy in Python's sense, that is
present AND non-zero; a record with population 0 or exchange rate 0 is
stored with estimated_gdp absent even though both fields are present. -/
theorem save_gdp_present_iff_truthy (m : ℚ) (now : ℕ) (c c2 : Country)
    (h : Country.save m now c = .ok c2) :
    c2.estimated_gdp.isSome =
      (truthyInt c.population && truthyRat c.exchange_rate) := by
  obtain ⟨hc2, _⟩ := save_ok_elim m now c c2 h
  subst hc2
  show (c.presave m).estimated_gdp.isSome = _
  unfold Country.presave Country.calculate_estimated_gdp
  by_cases h1 : truthyInt c.population = true <;>
    by_cases h2 : truthyRat c.exchange_rate = true <;>
    simp [h1, h2]

/-- Claim C2, witness for the amended theorem at a concrete accepted save. -/
theorem save_gdp_present_iff_truthy_witness :
    (Country.save 1000 7
        { name := "X", population := some 1, currency_code := some "USD",
          exchange_rate := some 1 } =
      .ok { name := "X", population := some 1, currency_code := some "USD",
            exchange_rate := some 1, estimated_gdp := some 1000,
            last_refreshed_at := 7 }) ∧
    (({ name := "X", population := some 1, currency_code := some "USD",
        exchange_rate := some 1, estimated_gdp := some 1000,
        last_refreshed_at := 7 } : Country).estimated_gdp.isSome =
      (truthyInt (some 1) && truthyRat (some 1))) := by
  have hsave : Country.save 1000 7
      { name := "X", population := some 1, currency_code := some "USD",
        exchange_rate := some 1 } =
      .ok { name := "X", population := some 1, currency_code := some "USD",
            exchange_rate := some 1, estimated_gdp := some 1000,
            last_refreshed_at := 7 } := by
    unfold Country.save Country.presave Country.calculate_estimated_gdp
    norm_num [truthyInt, truthyRat, truthyStr, Country.clean, pyRound,
      roundHalfEvenZ, ratFloor]
    rfl
  exact ⟨hsave, save_gdp_present_iff_truthy 1000 7 _ _ hsave⟩

/-- Claim C5: if the exchange-rate fetch or the country-directory fetch
fails, refresh_countries_data propagates the error with the store and the
global marker completely unchanged, and the refresh endpoint answers with a
503 service-unavailable response. -/
theorem refresh_fetch_failure_no_writes (e : String)
    (cres : Except String (List CountryData)) (rates : RateMap)
    (mult : ℕ → ℚ × ℚ) (now : ℕ) (store : List Country) (marker : Option ℕ)
    (imageOk : Bool) :
    refresh_countries_data ⟨.error e, cres⟩ mult now store marker =
      (.error e, store, marker) ∧
    refresh_countries_data ⟨.ok rates, .error e⟩ mult now store marker =
      (.error e, store, marker) ∧
    refreshPost ⟨.error e, cres⟩ mult now store marker imageOk =
      (.serviceUnavailable e, store, marker) ∧
    refreshPost ⟨.ok rates, .error e⟩ mult now store marker imageOk =
      (.serviceUnavailable e, store, marker) ∧
    (RefreshPostResponse.serviceUnavailable e).statusCode = 503 :=
  ⟨rfl, rfl, rfl, rfl, rfl⟩

/-- Claim C8: a GET /countries request with any unrecognized parameter key
is rejected with a 400 response listing the offending keys, and the outcome
does not depend on the store in any way (the store is never consulted). -/
theorem countriesList_rejects_unknown_params (params : QueryParams)
    (s₁ s₂ : List Country) (h : invalid_params params ≠ []) :
    countriesList params s₁ =
      .badRequest (invalid_params params) valid_params ∧
    (countriesList params s₁).statusCode = 400 ∧
    countriesList params s₁ = countriesList params s₂ := by
  have hne : (invalid_params params).isEmpty = false := by
    rcases hh : invalid_params params with _ | ⟨a, l⟩
    · exact absurd hh h
    · rfl
  unfold countriesList
  rw [hne]
  exact ⟨rfl, rfl, rfl⟩

/-- Claim C8, witness: the request GET /countries?bogus=1 is rejected with
400 regardless of the store contents. -/
theorem countriesList_rejects_unknown_params_witness :
    countriesList [("bogus", "1")] [] =
      .badRequest (invalid_params [("bogus", "1")]) valid_params ∧
    (countriesList [("bogus", "1")] []).statusCode = 400 ∧
    countriesList [("bogus", "1")] [] =
      countriesList [("bogus", "1")] [{ name := "A" }] :=
  countriesList_rejects_unknown_params [("bogus", "1")] []
    [{ name := "A" }] (by decide)

/-- Claim C1: a source entry whose currency list is empty is NOT stored as
the spec requires; the no-currency branch prepares currency_code absent and
estimated_gdp 0, but Country.save's validation requires currency_code, so
the record is rejected (per-record error) and the store stays empty. -/
theorem refresh_empty_currencies_rejected :
    refreshCore [] [{ name := some "Atlantis", population := some 5 }]
        (fun _ => (1000, 1000)) 7 [] =
      { processed := 1, errors := 1, store := [] } ∧
    Country.save 1000 7
        { name := "Atlantis", population := some 5, estimated_gdp := some 0 } =
      .error ["currency_code"] :=
  ⟨rfl, rfl⟩

/-- Claim C3, counterexample: a refresh whose single record fails
validation has one per-record error, yet the refresh endpoint's response
carries errors = 0 (the dict returned by refresh_countries_data has no
error-count key, and the view fills the field with the default 0), so the
result does not contain the count of per-record errors. -/
theorem refresh_error_count_cex :
    (refreshCore [] [{ name := some "Atlantis", population := some 5 }]
        (fun _ => (1000, 1000)) 7 []).errors = 1 ∧
    (refreshPost ⟨.ok [], .ok [{ name := some "Atlantis", population := some 5 }]⟩
        (fun _ => (1000, 1000)) 7 [] none true).1 =
      .ok { message := "Countries data refreshed successfully",
            countries_processed := 1, countries_updated := 0,
            countries_created := 0, errors := 0, image_generated := true } :=
  ⟨rfl, rfl⟩

/-- Claim C3, amended: every successful refresh returns processed, created
and updated counts satisfying processed = created + updated + (entries
skipped for missing or empty name) + (per-record errors) = number of source
entries; the error count itself is not part of the returned result, and the
errors field the endpoint adds to the response is always 0. -/
theorem refresh_accounting (rates : RateMap) (cdata : List CountryData)
    (mult : ℕ → ℚ × ℚ) (now : ℕ) (store : List Country) :
    (refreshCore rates cdata mult now store).processed = cdata.length ∧
    (refreshCore rates cdata mult now store).processed =
      (refreshCore rates cdata mult now store).created +
        (refreshCore rates cdata mult now store).updated +
        (refreshCore rates cdata mult now store).skipped +
        (refreshCore rates cdata mult now store).errors ∧
    (∀ (inp : RefreshInput) (marker : Option ℕ) (imageOk : Bool)
        (d : RefreshResponseData) (st2 : List Country) (mk2 : Option ℕ),
      refreshPost inp mult now store marker imageOk = (.ok d, st2, mk2) →
      d.errors = 0) := by
  have h := refreshLoop_spec rates now mult cdata 0 { store := store }
  have e1 : ({ store := store } : RState).processed = 0 := rfl
  have e2 : countSum { store := store } = 0 := rfl
  unfold refreshCore
  refine ⟨?_, ?_, ?_⟩
  · rw [h.1, e1]
    omega
  · have h1 := h.1
    have h2 := h.2.1
    rw [e1] at h1
    rw [e2] at h2
    simp only [countSum] at h2
    omega
  · intro inp marker imageOk d st2 mk2 hpost
    rcases inp with ⟨rr, cr⟩
    rcases rr with e | rates2
    · simp [refreshPost, refresh_countries_data] at hpost
    · rcases cr with e | cdata2
      · simp [refreshPost, refresh_countries_data] at hpost
      · simp only [refreshPost, refresh_countries_data, Prod.mk.injEq] at hpost
        obtain ⟨h1, -, -⟩ := hpost
        have hd := RefreshPostResponse.ok.inj h1
        subst hd
        rfl

/-- Claim C3, witness for the amended theorem: an empty refresh has
consistent counters and a response with the errors field 0. -/
theorem refresh_accounting_witness :
    ({ message := "Countries data refreshed successfully",
       countries_processed := 0, countries_updated := 0,
       countries_created := 0, errors := 0,
       image_generated := true } : RefreshResponseData).errors = 0 :=
  (refresh_accounting [] [] (fun _ => (1000, 1000)) 7 []).2.2
    ⟨.ok [], .ok []⟩ none true _ [] (some 7) rfl

/-- Claim C4, counterexample: with one stored country whose
last_refreshed_at is 5, a successful refresh at time 10 that touches zero
country rows advances the global marker to 10, yet GET /status still
reports 5 — the status time comes from the countries table, not from the
global marker. -/
theorem status_not_from_marker_cex :
    (refresh_countries_data ⟨.ok [], .ok []⟩ (fun _ => (1000, 1000)) 10
        [{ name := "A", population := some 3, currency_code := some "USD",
           last_refreshed_at := 5 }] (some 3)).2.2 = some 10 ∧
    statusList (refresh_countries_data ⟨.ok [], .ok []⟩ (fun _ => (1000, 1000)) 10
        [{ name := "A", population := some 3, currency_code := some "USD",
           last_refreshed_at := 5 }] (some 3)).2.1 =
      { total_countries := 1, last_refreshed_at := some 5 } ∧
    (some 5 : Option ℕ) ≠ some 10 :=
  ⟨rfl, rfl, by decide⟩

/-- Claim C4, amended: GET /status reports last_refreshed_at as the most
recent per-country timestamp of the countries table; a successful refresh
that creates and updates zero records sets the global marker to now but
leaves the store, and hence the reported status, unchanged. -/
theorem status_after_zero_write_refresh (rates : RateMap)
    (cdata : List CountryData) (mult : ℕ → ℚ × ℚ) (now : ℕ)
    (store : List Country) (marker : Option ℕ) (r : RefreshResult)
    (st2 : List Country) (mk2 : Option ℕ)
    (h : refresh_countries_data ⟨.ok rates, .ok cdata⟩ mult now store marker =
      (.ok r, st2, mk2))
    (hc : r.created = 0) (hu : r.updated = 0) :
    st2 = store ∧ mk2 = some now ∧ statusList st2 = statusList store := by
  have hs := refreshLoop_spec rates now mult cdata 0 { store := store }
  simp only [refresh_countries_data, refreshCore, Prod.mk.injEq] at h
  obtain ⟨h1, h2, h3⟩ := h
  have hr := Except.ok.inj h1
  have hcreated : (refreshLoop rates now mult 0 { store := store } cdata).created = 0 := by
    rw [← hr] at hc
    exact hc
  have hupdated : (refreshLoop rates now mult 0 { store := store } cdata).updated = 0 := by
    rw [← hr] at hu
    exact hu
  have hstore := hs.2.2.2.2 (by simpa using hcreated) (by simpa using hupdated)
  simp only at hstore
  subst h2 h3
  exact ⟨hstore, rfl, by rw [hstore]⟩

/-- Claim C4, witness for the amended theorem at a concrete zero-write
refresh. -/
theorem status_after_zero_write_refresh_witness :
    ([{ name := "A", population := some 3, currency_code := some "USD",
        last_refreshed_at := 5 }] : List Country) =
      [{ name := "A", population := some 3, currency_code := some "USD",
         last_refreshed_at := 5 }] ∧
    (some 10 : Option ℕ) = some 10 ∧
    statusList [{ name := "A", population := some 3, currency_code := some "USD",
                  last_refreshed_at := 5 }] =
      statusList [{ name := "A", population := some 3, currency_code := some "USD",
                    last_refreshed_at := 5 }] :=
  status_after_zero_write_refresh [] [] (fun _ => (1000, 1000)) 10
    [{ name := "A", population := some 3, currency_code := some "USD",
       last_refreshed_at := 5 }] none ⟨0, 0, 0⟩ _ _ rfl rfl rfl

lemma truthyStr_getD_ne (o : Option String) (h : truthyStr o = true) :
    o.getD "" ≠ "" := by
  cases o <;> simp_all [truthyStr]

lemma save_ok_of_fields (m : ℚ) (now : ℕ) (c : Country) (p : ℤ) (xr : ℚ)
    (h1 : c.name ≠ "") (h2 : c.population = some p) (hp : p ≠ 0)
    (h3 : truthyStr c.currency_code = true) (h4 : c.exchange_rate = some xr)
    (hxz : xr ≠ 0) :
    Country.save m now c =
      .ok { c with estimated_gdp := some (pyRound 10 ((p : ℚ) * m / xr)),
                   last_refreshed_at := now } := by
  have hcl : Country.clean c = [] :=
    (clean_eq_nil_iff c).mpr ⟨h1, by simp [h2], h3⟩
  have hcond : truthyInt c.population = true ∧ truthyRat c.exchange_rate = true := by
    rw [h2, h4]
    simp [truthyInt, truthyRat, hp, hxz]
  unfold Country.save
  rw [clean_presave, hcl]
  unfold Country.presave Country.calculate_estimated_gdp
  rw [if_pos hcond, if_pos hcond, h2, h4]
  rfl

lemma update_or_create_mem (nm : String) (defaults : Country) (m : ℚ) (now : ℕ)
    (store st2 : List Country) (fl : Bool) (saved : Country)
    (hsave : Country.save m now { defaults with name := nm } = .ok saved)
    (h : update_or_create nm defaults m now store = .ok (st2, fl)) :
    saved ∈ st2 := by
  unfold update_or_create at h
  rw [hsave] at h
  dsimp only at h
  by_cases hf : (store.find? (fun c => c.name = nm)).isSome
  · rw [if_pos hf] at h
    obtain ⟨hst, -⟩ := Prod.mk.injEq .. ▸ Except.ok.inj h
    obtain ⟨x, hx, hxn⟩ := List.find?_isSome.mp hf
    rw [← hst]
    exact List.mem_map.mpr ⟨x, hx, by simp [of_decide_eq_true hxn]⟩
  · rw [if_neg hf] at h
    obtain ⟨hst, -⟩ := Prod.mk.injEq .. ▸ Except.ok.inj h
    rw [← hst]
    exact List.mem_append_right _ (List.mem_singleton.mpr rfl)

lemma writeRecord_mem (nm : String) (defaults : Country) (m : ℚ) (now : ℕ)
    (s : RState) (saved : Country)
    (hsave : Country.save m now { defaults with name := nm } = .ok saved) :
    saved ∈ (writeRecord nm defaults m now s).store := by
  unfold writeRecord
  rcases hu : update_or_create nm defaults m now s.store with e | ⟨st2, fl⟩
  · unfold update_or_create at hu
    rw [hsave] at hu
    dsimp only at hu
    split at hu <;> exact absurd hu (by simp)
  · have hm := update_or_create_mem nm defaults m now s.store st2 fl saved hsave hu
    cases fl <;> simpa using hm

lemma processEntry_gdp_mem (rates : RateMap) (now : ℕ) (mm : ℚ × ℚ)
    (s : RState) (cd : CountryData) (xr : ℚ)
    (hn : truthyStr cd.name = true)
    (hcur : cd.currencies.isEmpty = false)
    (hcc : truthyStr (get_currency_code cd.currencies) = true)
    (hx : get_exchange_rate rates (get_currency_code cd.currencies) = some xr)
    (hxz : xr ≠ 0)
    (hp : cd.population.getD 0 ≠ 0) :
    ∃ c ∈ (processEntry rates now mm s cd).store,
      c.name = cd.name.getD "" ∧ c.exchange_rate = some xr ∧
      c.estimated_gdp =
        some (pyRound 10 ((cd.population.getD 0 : ℚ) * mm.2 / xr)) := by
  have hname : cd.name.getD "" ≠ "" := truthyStr_getD_ne _ hn
  unfold processEntry
  dsimp only
  rw [if_neg (by simp [hn]), if_neg (by simp [hcur, hcc]), hx]
  dsimp only
  rw [if_neg hxz]
  exact ⟨_, writeRecord_mem _ _ _ _ _ _
    (save_ok_of_fields mm.2 now _ (cd.population.getD 0) xr hname rfl hp hcc
      rfl hxz), rfl, rfl, rfl⟩

/-- Claim C7, counterexample: in a run whose save-time multiplier is
1000.001, a record is stored whose estimated_gdp is exactly 1000.001 (the
10-digit half-even rounding applied by Country.save, which overwrites the
refresh loop's 2-digit value), and no multiplier m whatsoever satisfies the
claimed rule, because rounding population * m / exchangeRate (here 1 * m /
1) to 2 fractional digits half-up always yields an integer multiple of
1/100 and 1000.001 is not one. -/
theorem refresh_gdp_two_digit_cex :
    (∃ c ∈ (processEntry [("USD", 1)] 7 (1500, 1000001/1000) {}
        { name := some "A", population := some 1,
          currencies := [⟨some "USD"⟩] }).store,
      c.estimated_gdp = some (1000001/1000)) ∧
    ∀ m : ℚ, quantize 2 ((1 : ℚ) * m / 1) ≠ 1000001/1000 := by
  constructor
  · have hx : get_exchange_rate [("USD", 1)] (some "USD") = some 1 := by
      norm_num [get_exchange_rate, lookupRate, truthyStr, quantize,
        roundHalfUpZ, ratFloor]
      decide
    obtain ⟨c, hc, -, -, hg⟩ := processEntry_gdp_mem [("USD", 1)] 7
      (1500, 1000001/1000) {}
      { name := some "A", population := some 1, currencies := [⟨some "USD"⟩] }
      1 (by decide) (by decide) (by decide) hx (by norm_num) (by decide)
    refine ⟨c, hc, ?_⟩
    rw [hg]
    norm_num [pyRound, roundHalfEvenZ, ratFloor]
  · intro m hm
    rw [show (1 : ℚ) * m / 1 = m from by ring] at hm
    unfold quantize at hm
    have hq : ((roundHalfUpZ (m * 10 ^ 2) : ℤ) : ℚ) * 1000 = 100000100 := by
      field_simp at hm
      linarith
    have hz : (roundHalfUpZ (m * 10 ^ 2)) * 1000 = 100000100 := by
      exact_mod_cast hq
    omega

/-- Claim C7, amended: for a country entry with a truthy name, a truthy
first-entry currency code, a resolvable non-zero quantized exchange rate
and a non-zero population, the stored estimated_gdp equals population *
multiplier / exchangeRate rounded to 10 fractional digits half-to-even
(Python round), where the multiplier is the fresh save-time draw: the
2-digit half-up value computed in the refresh loop is recomputed and
overwritten by Country.save before the record is persisted. -/
theorem refresh_gdp_formula (rates : RateMap) (now : ℕ) (mm : ℚ × ℚ)
    (s : RState) (cd : CountryData) (xr : ℚ)
    (hn : truthyStr cd.name = true)
    (hcur : cd.currencies.isEmpty = false)
    (hcc : truthyStr (get_currency_code cd.currencies) = true)
    (hx : get_exchange_rate rates (get_currency_code cd.currencies) = some xr)
    (hxz : xr ≠ 0)
    (hp : cd.population.getD 0 ≠ 0) :
    ∃ c ∈ (processEntry rates now mm s cd).store,
      c.name = cd.name.getD "" ∧ c.exchange_rate = some xr ∧
      c.estimated_gdp =
        some (pyRound 10 ((cd.population.getD 0 : ℚ) * mm.2 / xr)) :=
  processEntry_gdp_mem rates now mm s cd xr hn hcur hcc hx hxz hp

/-- Claim C7, witness for the amended theorem at a concrete entry with
population 1, rate 1 and save-time multiplier 1000. -/
theorem refresh_gdp_formula_witness :
    ∃ c ∈ (processEntry [("USD", 1)] 7 (1500, 1000) {}
        { name := some "A", population := some 1,
          currencies := [⟨some "USD"⟩] }).store,
      c.name = ((some "A" : Option String)).getD "" ∧
      c.exchange_rate = some 1 ∧
      c.estimated_gdp =
        some (pyRound 10 (((some (1 : ℤ) : Option ℤ).getD 0 : ℚ) * 1000 / 1)) := by
  have hx : get_exchange_rate [("USD", 1)] (some "USD") = some 1 := by
    norm_num [get_exchange_rate, lookupRate, truthyStr, quantize,
      roundHalfUpZ, ratFloor]
    decide
  exact refresh_gdp_formula [("USD", 1)] 7 (1500, 1000) {}
    { name := some "A", population := some 1, currencies := [⟨some "USD"⟩] }
    1 (by decide) (by decide) (by decide) hx (by norm_num) (by decide)

/-- Claim C10, counterexample: the positive rate 10⁻¹¹ is truthy, so it is
not treated as unresolved, but quantizing it to 10 decimal places gives the
Decimal 0: get_exchange_rate returns some 0 and the GDP division's divisor
is zero for this input. -/
theorem rate_quantize_zero_cex :
    (1/100000000000 : ℚ) ≠ 0 ∧
    get_exchange_rate [("KWD", 1/100000000000)] (some "KWD") = some 0 := by
  constructor
  · norm_num
  · norm_num [get_exchange_rate, lookupRate, truthyStr, quantize,
      roundHalfUpZ, ratFloor]
    decide

/-- Claim C10, amended: a rate of exactly 0 (or a missing rate) is treated
as unresolved, but a positive rate that quantizes to zero at 10 decimal
places reaches the division as a zero divisor; the resulting
ZeroDivisionError is caught by the per-record handler, so the entry is
counted as an error and nothing is written to the store. -/
theorem rate_zero_unresolved_or_error :
    (∀ (rates : RateMap) (c : String), c ≠ "" → lookupRate rates c = some 0 →
      get_exchange_rate rates (some c) = none) ∧
    (∀ (rates : RateMap) (now : ℕ) (mm : ℚ × ℚ) (s : RState) (cd : CountryData),
      truthyStr cd.name = true →
      cd.currencies.isEmpty = false →
      truthyStr (get_currency_code cd.currencies) = true →
      get_exchange_rate rates (get_currency_code cd.currencies) = some 0 →
      processEntry rates now mm s cd =
        { s with processed := s.processed + 1, errors := s.errors + 1 }) := by
  constructor
  · intro rates c hc hl
    have hne : rates.isEmpty = false := by
      cases rates
      · simp [lookupRate] at hl
      · rfl
    unfold get_exchange_rate
    rw [if_neg (by simp [truthyStr, hc, hne])]
    dsimp only [Option.getD]
    rw [hl]
    simp
  · intro rates now mm s cd hn hcur hcc hx
    unfold processEntry
    dsimp only
    rw [if_neg (by simp [hn]), if_neg (by simp [hcur, hcc]), hx]
    dsimp only
    rw [if_pos rfl]

/-- Claim C10, witness: a stored zero rate resolves to none, while the
tiny rate 10⁻¹¹ leads to a counted per-record error with no store write. -/
theorem rate_zero_unresolved_or_error_witness :
    get_exchange_rate [("XAU", 0)] (some "XAU") = none ∧
    processEntry [("KWD", 1/100000000000)] 7 (1000, 1000) {}
        { name := some "K", population := some 5,
          currencies := [⟨some "KWD"⟩] } =
      { processed := 1, errors := 1 } := by
  constructor
  · exact rate_zero_unresolved_or_error.1 [("XAU", 0)] "XAU" (by decide) rfl
  · have hx : get_exchange_rate [("KWD", 1/100000000000)] (some "KWD") =
        some 0 := by
      norm_num [get_exchange_rate, lookupRate, truthyStr, quantize,
        roundHalfUpZ, ratFloor]
      decide
    exact rate_zero_unresolved_or_error.2 [("KWD", 1/100000000000)] 7
      (1000, 1000) {} _ (by decide) (by decide) (by decide) hx

end CountriesApi
